import Mathlib

/-!
Shallow embedding of the decision-and-execution engine of `src/main_bot.py`
(a news-driven trading bot) and proofs of the specified properties.

Conventions of the embedding:
* Machine floats of the source are modelled as exact rationals (`ℚ`).
* Timestamps are integers (seconds); a wall-clock instant carries its UTC
  calendar date and hour as separate fields, as the source derives all three
  from one `datetime.datetime.utcnow()` call.
* The module-level mutable variables of the source (`open_positions`,
  `trade_counter`, `cooldown_until`, `RISK_PERCENT`) are threaded explicitly.
  `trade_counter` is a dict that the source always clears before inserting a
  key, so it holds at most one `(date, count)` pair and is modelled as
  `Option (ℤ × ℕ)`.
* Calls into external collaborators (MetaTrader 5 terminal, OpenAI, Telegram)
  are modelled by their returned data, supplied as explicit inputs; a `none`
  models the `None` these APIs return on failure.
* Python code that returns `None` is modelled by `Option`/`Except.ok none`;
  Python code that raises is modelled by `Except.error`.  A division whose
  divisor the source does not test before dividing is modelled as raising
  `ZeroDivisionError` when the divisor is zero, as Python float division does.
-/

namespace NewsBot

/-! ## Configuration constants (module level in `main_bot.py`) -/

/-- `RISK_PERCENT = 10.0`, the initial value of the module-level risk global. -/
def RISK_PERCENT_initial : ℚ := 10

/-- `ATR_SL_MULTIPLIER = 1.5` -/
def ATR_SL_MULTIPLIER : ℚ := 3 / 2

/-- `ATR_TP_MULTIPLIER = 3.0` -/
def ATR_TP_MULTIPLIER : ℚ := 3

/-- `MIN_NEWS_IMPORTANCE = 2` -/
def MIN_NEWS_IMPORTANCE : ℤ := 2

/-- `MIN_LIQUIDITY_HOUR = 6` -/
def MIN_LIQUIDITY_HOUR : ℕ := 6

/-- `MAX_SPREAD_POINTS = 30` -/
def MAX_SPREAD_POINTS : ℚ := 30

/-- `MAX_TRADES_PER_DAY = 10` -/
def MAX_TRADES_PER_DAY : ℕ := 10

/-- `COOLDOWN_AFTER_LOSS = 600` seconds -/
def COOLDOWN_AFTER_LOSS : ℤ := 600

/-- MetaTrader 5 constant `mt5.TRADE_RETCODE_DONE`. -/
def TRADE_RETCODE_DONE : ℕ := 10009

/-- MetaTrader 5 constant `mt5.DEAL_TYPE_BUY`. -/
def DEAL_TYPE_BUY : ℕ := 0

/-- MetaTrader 5 constant `mt5.DEAL_TYPE_SELL`. -/
def DEAL_TYPE_SELL : ℕ := 1

/-! ## Data model -/

/-- One wall-clock instant, as produced by `datetime.datetime.utcnow()`:
`t` is the timestamp in seconds, `date` its UTC calendar date (as an ordinal)
and `hour` its UTC hour. -/
structure DT where
  date : ℤ
  hour : ℕ
  t : ℤ
  deriving DecidableEq

/-- The part of `mt5.symbol_info(symbol)` that the engine reads. -/
structure SymbolInfo where
  visible : Bool
  point : ℚ
  trade_tick_value : ℚ
  trade_tick_size : ℚ
  volume_step : ℚ
  volume_min : ℚ
  volume_max : ℚ
  deriving DecidableEq

/-- The part of `mt5.symbol_info_tick(symbol)` that the engine reads. -/
structure Tick where
  ask : ℚ
  bid : ℚ
  deriving DecidableEq

/-- The part of the `mt5.order_send` result object that the engine reads. -/
structure OrderResult where
  retcode : ℕ
  order : ℕ
  price : ℚ
  volume : ℚ
  sl : ℚ
  tp : ℚ
  deriving DecidableEq

/-- The part of an `mt5.history_deals_get` deal object that the monitor reads. -/
structure Deal where
  ticket : ℕ
  type : ℕ
  entry : ℕ
  symbol : String
  volume : ℚ
  price : ℚ
  profit : ℚ
  time : ℤ
  deriving DecidableEq

/-- A raw news event as consumed by `process_news_item` (`news_data.get(...)`
fields; `none` models an absent key). -/
structure NewsData where
  title : Option String
  type : Option String
  importance : Option ℤ
  deriving DecidableEq

/-- An audit entry appended to `trade_results.json` by `log_trade_result`. -/
inductive TradeRecord where
  | opened (symbol action : String) (volume price sl tp : ℚ) (latency : ℤ)
  | closed (ticket : ℕ) (symbol : String) (volume close_price profit : ℚ)
  deriving DecidableEq

/-- An audit entry appended to `news_log.json` by `log_news`. -/
structure NewsLogRecord where
  title : Option String
  filtered : Bool
  reason : Option String
  deriving DecidableEq

/-- A Python exception relevant to this embedding. -/
inductive PyError where
  | zeroDivisionError
  deriving DecidableEq

/-! ## Small Python-semantics helpers -/

/-- Python 3 `round` to an integer: round half to even (banker's rounding). -/
def pyRound (q : ℚ) : ℤ :=
  if q - ⌊q⌋ < 1 / 2 then ⌊q⌋
  else if (1 : ℚ) / 2 < q - ⌊q⌋ then ⌊q⌋ + 1
  else if ⌊q⌋ % 2 = 0 then ⌊q⌋ else ⌊q⌋ + 1

/-- Python `needle in hay` on lists of characters. -/
def isSubList (needle : List Char) : List Char → Bool
  | [] => needle.isEmpty
  | c :: rest => needle.isPrefixOf (c :: rest) || isSubList needle rest

/-- Python substring containment `needle in hay` on strings. -/
def pyIn (needle hay : String) : Bool :=
  isSubList needle.toList hay.toList

/-- Split a character list at every character satisfying `p`, keeping empty
pieces (the helper under `pySplitWs`). -/
def splitOnPred (p : Char → Bool) (l : List Char) : List (List Char) :=
  l.foldr
    (fun c acc =>
      match acc with
      | cur :: rest => if p c then [] :: cur :: rest else (c :: cur) :: rest
      | [] => [[c]])
    [[]]

/-- Python `str.split()` with no argument: split on whitespace runs,
discarding empty pieces. -/
def pySplitWs (s : String) : List String :=
  ((splitOnPred Char.isWhitespace s.data).map String.mk).filter (fun piece => piece ≠ "")

/-- Python `symbol.replace("/", "")`: remove every slash. -/
def pyRemoveSlashes (s : String) : String :=
  String.mk (s.data.filter (fun c => c ≠ '/'))

/-- Python `str.strip()`: drop leading and trailing whitespace. -/
def pyStrip (s : String) : String :=
  String.mk (((s.data.dropWhile Char.isWhitespace).reverse.dropWhile Char.isWhitespace).reverse)

/-- Python `str.upper()` (ASCII case mapping, all this engine needs). -/
def pyUpper (s : String) : String :=
  String.mk (s.data.map Char.toUpper)

/-- Python `str.lower()` (ASCII case mapping, all this engine needs). -/
def pyLower (s : String) : String :=
  String.mk (s.data.map Char.toLower)

/-- Python `str.split("\n")`: split at every newline, keeping empty pieces. -/
def pySplitLines (s : String) : List String :=
  (splitOnPred (fun c => c = '\n') s.data).map String.mk

/-- The per-date trade counter: a dict holding at most one `(date, count)`
pair (the source clears it before inserting a fresh date).  `countFor c d` is
`c[d]` with default `0`. -/
def countFor (counter : Option (ℤ × ℕ)) (d : ℤ) : ℕ :=
  match counter with
  | some (d1, c) => if d1 = d then c else 0
  | none => 0

/-- Pointwise order on optional cooldown expiries (`none` = no cooldown). -/
def optionLe (a b : Option ℤ) : Bool :=
  match a, b with
  | none, _ => true
  | some _, none => false
  | some x, some y => decide (x ≤ y)

/-- `cooldown_until and now < cooldown_until`: the cooldown is set and still
in the future. -/
def cooldown_active (cooldown_until : Option ℤ) (t : ℤ) : Bool :=
  match cooldown_until with
  | none => false
  | some cu => decide (t < cu)

/-! ## ExecutionGuard state and operations (`can_trade`, `register_trade`,
`acquire`/release via the `open_positions` set) -/

/-- The process-wide mutable execution state of the source:
`open_positions` (a set of symbols, modelled as a duplicate-free list),
`trade_counter` and `cooldown_until`. -/
structure BotState where
  open_positions : List String
  trade_counter : Option (ℤ × ℕ)
  cooldown_until : Option ℤ
  deriving DecidableEq

/-- `can_trade(symbol)` of `main_bot.py` (lines 613-628).  The source reads
and lazily resets the global `trade_counter`, so the embedding returns the
decision together with the counter after the lazy reset.  The `symbol`
argument is accepted and, as in the source, never used. -/
def can_trade (symbol : String) (trade_counter : Option (ℤ × ℕ))
    (cooldown_until : Option ℤ) (now : DT) : Bool × Option (ℤ × ℕ) :=
  let today := now.date
  let counter1 : Option (ℤ × ℕ) :=
    match trade_counter with
    | some (d, c) => if d = today then some (d, c) else some (today, 0)
    | none => some (today, 0)
  let c : ℕ :=
    match counter1 with
    | some (_, c) => c
    | none => 0
  if MAX_TRADES_PER_DAY ≤ c then (false, counter1)
  else
    match cooldown_until with
    | some cu => if now.t < cu then (false, counter1) else (true, counter1)
    | none => (true, counter1)

/-- `register_trade()` of `main_bot.py` (lines 630-635): lazily reset the
per-date counter, then increment the entry for today. -/
def register_trade (trade_counter : Option (ℤ × ℕ)) (today : ℤ) :
    Option (ℤ × ℕ) :=
  match trade_counter with
  | some (d, c) => if d = today then some (d, c + 1) else some (today, 1)
  | none => some (today, 1)

/-- `n` successive `register_trade` calls on the same date. -/
def register_iter (trade_counter : Option (ℤ × ℕ)) (today : ℤ) :
    ℕ → Option (ℤ × ℕ)
  | 0 => trade_counter
  | n + 1 => register_trade (register_iter trade_counter today n) today

/-- The duplicate-protection guard of `execute_trade` (lines 339-343): under
the lock, test membership of `symbol` in `open_positions` and insert it when
absent.  Returns `false` (reject as duplicate) without touching the set when
the symbol is already present. -/
def acquire (open_positions : List String) (symbol : String) :
    Bool × List String :=
  if symbol ∈ open_positions then (false, open_positions)
  else (true, symbol :: open_positions)

/-- `check_market_conditions(symbol)` of `main_bot.py` (lines 315-330).
The current UTC hour, the tick and the symbol metadata are the data the
source fetches from the clock and the terminal.  The spread computation
divides by `symbol_info.point` without a guard; a zero point is modelled as
the `ZeroDivisionError` Python would raise. -/
def check_market_conditions (hour : ℕ) (tick : Option Tick)
    (symbol_info : Option SymbolInfo) : Except PyError Bool :=
  if hour < MIN_LIQUIDITY_HOUR then Except.ok false
  else
    match tick, symbol_info with
    | some tk, some si =>
      if si.point = 0 then Except.error PyError.zeroDivisionError
      else
        let spread := |tk.ask - tk.bid| / si.point
        if MAX_SPREAD_POINTS < spread then Except.ok false else Except.ok true
    | _, _ => Except.ok false

/-! ## RiskSizer (`calculate_position_size`) -/

/-- The raw (un-stepped, un-clamped) lot size of `calculate_position_size`:
`risk_amount / (sl_pips * value_per_pip)` with
`risk_amount = balance * (RISK_PERCENT / 100.0)` and
`value_per_pip = tick_value * (point / tick_size)`. -/
def raw_lot_size (balance risk_percent sl_pips tick_value tick_size point : ℚ) : ℚ :=
  (balance * (risk_percent / 100)) / (sl_pips * (tick_value * (point / tick_size)))

/-- The two sequential clamps at the end of `calculate_position_size`:
raise to `volume_min` when below it, then lower to `volume_max` when above. -/
def clampVol (lot_size volume_min volume_max : ℚ) : ℚ :=
  let lot1 := if lot_size < volume_min then volume_min else lot_size
  if volume_max < lot1 then volume_max else lot1

/-- `calculate_position_size(symbol, sl_pips)` of `main_bot.py`
(lines 266-313).  `account_balance` and `symbol_info` are the data returned
by `mt5.account_info()` / `mt5.symbol_info(symbol)` (`none` when the call
fails); `risk_percent` is the value of the module-level global
`RISK_PERCENT` at call time.  Zero `tick_size`/`point` and zero
`value_per_pip`/`sl_pips` are tested by the source and yield `None`
(`Except.ok none`); the division `lot_size / lot_step` in the rounding step
is not guarded, so a zero `volume_step` is the `ZeroDivisionError` Python
raises there. -/
def calculate_position_size (account_balance : Option ℚ)
    (symbol_info : Option SymbolInfo) (risk_percent sl_pips : ℚ) :
    Except PyError (Option ℚ) :=
  match account_balance, symbol_info with
  | some balance, some si =>
    if si.trade_tick_size = 0 ∨ si.point = 0 then Except.ok none
    else
      let value_per_pip := si.trade_tick_value * (si.point / si.trade_tick_size)
      if value_per_pip = 0 ∨ sl_pips = 0 then Except.ok none
      else
        let lot_size :=
          raw_lot_size balance risk_percent sl_pips
            si.trade_tick_value si.trade_tick_size si.point
        if si.volume_step = 0 then Except.error PyError.zeroDivisionError
        else
          let lot_stepped := (pyRound (lot_size / si.volume_step) : ℚ) * si.volume_step
          Except.ok (some (clampVol lot_stepped si.volume_min si.volume_max))
  | _, _ => Except.ok none

/-! ## OrderExecutor (`execute_trade`) -/

/-- The outcome of one `execute_trade` attempt, one constructor per exit
path of the source function. -/
inductive ExecOutcome where
  /-- symbol already in `open_positions`: early return inside the lock -/
  | duplicate
  /-- `can_trade` returned false (daily cap or cooldown) -/
  | limitOrCooldown
  /-- `check_market_conditions` returned false -/
  | badMarket
  /-- `mt5.symbol_info` returned `None` or the symbol is not visible -/
  | symbolUnavailable
  /-- `calculate_atr` returned `None` -/
  | noAtr
  /-- `mt5.symbol_info_tick` returned `None` -/
  | noTick
  /-- `calculate_position_size` returned `None` or `0` -/
  | noVolume
  /-- `mt5.order_send` returned no result object ("unknown error") -/
  | unknownError
  /-- order filled: `retcode == TRADE_RETCODE_DONE` -/
  | opened
  /-- order rejected: any other retcode -/
  | brokerError
  /-- an exception reached the `except` handler of `execute_trade` -/
  | exception
  deriving DecidableEq

/-- The external data consumed by one run of `execute_trade`: the values
returned by each terminal call the function makes, in source order.
Distinct fields model distinct calls (`mt5.symbol_info` is called in
`check_market_conditions`, in the body, and in `calculate_position_size`). -/
structure ExecEnv where
  tickMarket : Option Tick
  siMarket : Option SymbolInfo
  siExec : Option SymbolInfo
  atr : Option ℚ
  tickExec : Option Tick
  accountBalance : Option ℚ
  siCalc : Option SymbolInfo
  orderResult : Option OrderResult
  deriving DecidableEq

/-- The body of the `try:` block of `execute_trade` (lines 346-445) after the
`can_trade` check, given the decision `canTradeOk` that check produced.
Returns the outcome and the audit records appended by `log_trade_result`
(none of these paths touches `open_positions` or `trade_counter`). -/
def execute_attempt (env : ExecEnv) (risk_percent : ℚ)
    (action symbol : String) (now : DT) (news_received_t : ℤ)
    (canTradeOk : Bool) : ExecOutcome × List TradeRecord :=
  if canTradeOk = false then (ExecOutcome.limitOrCooldown, [])
  else
    match check_market_conditions now.hour env.tickMarket env.siMarket with
    | Except.error _ => (ExecOutcome.exception, [])
    | Except.ok false => (ExecOutcome.badMarket, [])
    | Except.ok true =>
      match env.siExec with
      | none => (ExecOutcome.symbolUnavailable, [])
      | some si =>
        if si.visible = false then (ExecOutcome.symbolUnavailable, [])
        else
          match env.atr with
          | none => (ExecOutcome.noAtr, [])
          | some atr_value =>
            match env.tickExec with
            | none => (ExecOutcome.noTick, [])
            | some tick =>
              let price := if action = "BUY" then tick.ask else tick.bid
              let stop_loss :=
                if action = "BUY" then price - atr_value * ATR_SL_MULTIPLIER
                else price + atr_value * ATR_SL_MULTIPLIER
              if si.point = 0 then (ExecOutcome.exception, [])
              else
                let sl_pips := |price - stop_loss| / si.point
                match calculate_position_size env.accountBalance env.siCalc
                    risk_percent sl_pips with
                | Except.error _ => (ExecOutcome.exception, [])
                | Except.ok none => (ExecOutcome.noVolume, [])
                | Except.ok (some volume) =>
                  if volume = 0 then (ExecOutcome.noVolume, [])
                  else
                    match env.orderResult with
                    | none => (ExecOutcome.unknownError, [])
                    | some result =>
                      if result.retcode = TRADE_RETCODE_DONE then
                        (ExecOutcome.opened,
                          [TradeRecord.opened symbol action result.volume
                            result.price result.sl result.tp
                            (now.t - news_received_t)])
                      else (ExecOutcome.brokerError, [])

/-- `execute_trade(action, symbol, reason, news_received_time)` of
`main_bot.py` (lines 334-452): duplicate guard under the lock, the guarded
attempt, and the `finally:` block that always discards the symbol from
`open_positions`.  `can_trade` is the only part of the body that writes the
shared state (its lazy counter reset); `cooldown_until` is never written
here.  Returns the outcome, the state after the `finally`, and the audit
records appended. -/
def execute_trade (env : ExecEnv) (risk_percent : ℚ)
    (action symbol : String) (now : DT) (news_received_t : ℤ)
    (st : BotState) : ExecOutcome × BotState × List TradeRecord :=
  match acquire st.open_positions symbol with
  | (false, _) => (ExecOutcome.duplicate, st, [])
  | (true, openedSet) =>
    let ct := can_trade symbol st.trade_counter st.cooldown_until now
    let attempt := execute_attempt env risk_percent action symbol now
      news_received_t ct.1
    (attempt.1,
      { open_positions := openedSet.erase symbol,
        trade_counter := ct.2,
        cooldown_until := st.cooldown_until },
      attempt.2)

/-! ## TradeLifecycleMonitor (`monitor_closed_trades`) -/

/-- The per-deal body of the effective `monitor_closed_trades` loop
(lines 675-699): skip deals that are not position closes or already seen;
otherwise remember the ticket, assign
`cooldown_until = utcnow() + COOLDOWN_AFTER_LOSS` when the realized profit
is negative, and append a close record (regardless of profit sign). -/
def monitor_closed_trades_step (last_ticket_set : List ℕ)
    (cooldown_until : Option ℤ) (now : ℤ) (deal : Deal) :
    List ℕ × Option ℤ × List TradeRecord :=
  if (deal.type = DEAL_TYPE_BUY ∨ deal.type = DEAL_TYPE_SELL) ∧ deal.entry = 1 then
    if deal.ticket ∈ last_ticket_set then (last_ticket_set, cooldown_until, [])
    else
      let seen1 := deal.ticket :: last_ticket_set
      let cooldown1 :=
        if deal.profit < 0 then some (now + COOLDOWN_AFTER_LOSS)
        else cooldown_until
      (seen1, cooldown1,
        [TradeRecord.closed deal.ticket deal.symbol deal.volume deal.price deal.profit])
  else (last_ticket_set, cooldown_until, [])

/-- Seconds slept between the end of one iteration of the effective
`monitor_closed_trades` loop (lines 668-703) and the next poll: the `try:`
block ends with `await asyncio.sleep(5)`, and the `await asyncio.sleep(10)`
on line 703 sits at loop level (outside the `except` clause), so it runs on
every iteration; an iteration that raises skips the 5-second sleep. -/
def monitor_cycle_sleep (errored : Bool) : ℕ :=
  (if errored then 0 else 5) + 10

/-- Seconds slept per iteration of the earlier, shadowed definition of
`monitor_closed_trades` (lines 455-490), where `await asyncio.sleep(10)` is
inside the `except` clause: 5 after success, 10 after an error. -/
def monitor_cycle_sleep_shadowed (errored : Bool) : ℕ :=
  if errored then 10 else 5

/-! ## SignalAcquisition: response parsing inside `get_trade_signal` -/

/-- The response-parsing tail of `get_trade_signal` (lines 226-240 of
`main_bot.py`), applied to the response text fetched from the completed
remote run: split into lines, require exactly two whitespace tokens on the
uppercased first line, require the first token to be BUY/SELL/SKIP, strip
`/` from the symbol, and default the reason when there is no second line.
Every deviation returns `none` (the source logs a warning and returns
`None`). -/
def parse_signal_response (response : String) : Option (String × String × String) :=
  let lines := pySplitLines (pyStrip response)
  match lines with
  | [] => none
  | l0 :: rest =>
    match pySplitWs (pyUpper (pyStrip l0)) with
    | [action, symbol] =>
      if action = "BUY" ∨ action = "SELL" ∨ action = "SKIP" then
        let reason :=
          match rest with
          | [] => "Причина не вказана."
          | l1 :: _ => pyStrip l1
        some (action, pyRemoveSlashes symbol, reason)
      else none
    | _ => none

/-- Modelled from the spec (section 4.2 of `spec.md`): the strict two-line
grammar — line 1 is exactly two tokens `ACTION SYMBOL` with
`ACTION ∈ {BUY, SELL, SKIP}` case-insensitively (uppercasing before the
comparison), the separator `/` is stripped from the returned symbol, line 2
is the free-text reason defaulted to the placeholder when absent, and any
deviation yields no-signal. -/
def parse_signal_spec (response : String) : Option (String × String × String) :=
  let lines := pySplitLines (pyStrip response)
  match pySplitWs (pyUpper (pyStrip (lines.headD ""))) with
  | [action, symbol] =>
    if action ∈ ["BUY", "SELL", "SKIP"] then
      some (action, pyRemoveSlashes symbol,
        match lines.get? 1 with
        | some l1 => pyStrip l1
        | none => "Причина не вказана.")
    else none
  | _ => none

/-! ## NewsFilter (`process_news_item`, filtering prefix) and risk tiers -/

/-- `NEWS_BLACKLIST` of `main_bot.py`. -/
def NEWS_BLACKLIST : List String :=
  ["rumor", "speculation", "unconfirmed", "minor", "recall", "dividend", "buyback"]

/-- `NEWS_WHITELIST` of `main_bot.py`. -/
def NEWS_WHITELIST : List String :=
  ["rate hike", "rate cut", "interest rate", "fed decision", "fomc", "ecb", "boj",
   "boe", "central bank", "policy statement", "minutes", "gdp", "cpi", "ppi",
   "inflation", "unemployment", "jobs report", "nfp", "non-farm", "retail sales",
   "trade balance", "manufacturing", "services pmi", "consumer confidence",
   "housing starts", "building permits", "core durable goods",
   "initial jobless claims", "ISM", "recession", "expansion", "deficit",
   "surplus", "stimulus", "taper", "quantitative easing", "qt", "yield curve",
   "bond auction", "downgrade", "upgrade", "credit rating", "default",
   "debt ceiling", "shutdown", "budget", "fiscal", "monetary",
   "war", "conflict", "sanctions", "tariffs", "trade war", "embargo", "summit",
   "agreement", "deal", "brexit", "election", "referendum", "protest", "strike",
   "emergency", "earthquake", "hurricane", "pandemic", "covid", "lockdown",
   "earnings", "profit warning", "guidance", "dividend cut", "dividend increase",
   "buyback", "merger", "acquisition", "ipo", "bankruptcy", "chapter 11",
   "layoffs", "job cuts", "ceo resigns", "scandal", "investigation", "fine",
   "lawsuit", "settlement", "antitrust", "regulation", "approval", "fda",
   "clinical trial", "recall", "hack", "cyberattack", "data breach",
   "oil", "crude", "gold", "silver", "commodity", "opec", "supply cut", "output",
   "inventory", "production", "export", "import", "price cap", "price floor",
   "volatility", "flash crash", "limit up", "limit down", "halted",
   "circuit breaker",
   "unexpected", "record high", "missed forecast", "surprise"]

/-- `IMPORTANT_NEWS_TYPES` of `main_bot.py`. -/
def IMPORTANT_NEWS_TYPES : List String :=
  ["economic", "earnings", "central_bank", "macro"]

/-- `dynamic_risk_percent(news_data)` of `main_bot.py` (lines 99-107):
risk tier selected by the importance of the news item (default 1). -/
def dynamic_risk_percent (news_data : NewsData) : ℚ :=
  let impact := news_data.importance.getD 1
  if impact = 3 then 10
  else if impact = 2 then 5
  else 2

/-- The filtering decision of `process_news_item`. -/
inductive FilterDecision where
  | rejectedBlacklist
  | rejectedWhitelist
  | rejectedImpact (impact : ℤ)
  | rejectedType (news_type : String)
  | accepted
  deriving DecidableEq

/-- The filtering prefix of `process_news_item` (lines 495-528 of
`main_bot.py`), evaluated in source order with first match winning; every
path, accept included, appends exactly one `log_news` record. -/
def process_news_filter (news_data : NewsData) : FilterDecision × List NewsLogRecord :=
  let title := pyLower (news_data.title.getD "")
  if NEWS_BLACKLIST.any (fun bad => pyIn bad title) then
    (FilterDecision.rejectedBlacklist,
      [{ title := news_data.title, filtered := true, reason := some "blacklist" }])
  else if (NEWS_WHITELIST.any (fun good => pyIn good title)) = false then
    (FilterDecision.rejectedWhitelist,
      [{ title := news_data.title, filtered := true, reason := some "not in whitelist" }])
  else
    let impact := news_data.importance.getD 1
    if impact < MIN_NEWS_IMPORTANCE then
      (FilterDecision.rejectedImpact impact,
        [{ title := news_data.title, filtered := true, reason := some s!"impact={impact}" }])
    else
      let news_type := pyLower (news_data.type.getD "")
      if news_type ≠ "" ∧ news_type ∉ IMPORTANT_NEWS_TYPES then
        (FilterDecision.rejectedType news_type,
          [{ title := news_data.title, filtered := true, reason := some s!"type={news_type}" }])
      else
        (FilterDecision.accepted,
          [{ title := news_data.title, filtered := false, reason := none }])

/-! ## Interleaving model for the shared `RISK_PERCENT` global

`process_news_item` (lines 530-532) assigns the module-level global
`RISK_PERCENT := dynamic_risk_percent(news_data)` and then awaits
`get_trade_signal` (a remote call of up to 60 s) before the spawned
`execute_trade` task calls `calculate_position_size`, which reads the
global.  Each accepted news item is an independent task on one cooperative
event loop, so between one item's write and its read, another item's write
can run.  The model below exposes exactly those two steps per task. -/

/-- One scheduler-visible step of one of two concurrent news tasks `A`/`B`:
the `RISK_PERCENT` write of `process_news_item`, or the sizing read in the
spawned `execute_trade`. -/
inductive PipeStep where
  | setRiskA
  | setRiskB
  | sizeA
  | sizeB
  deriving DecidableEq

/-- The interleaving-relevant shared state: the `RISK_PERCENT` global and
the sizing result each task's trade obtained (if it sized already). -/
structure PipeState where
  risk_percent : ℚ
  volA : Option (Except PyError (Option ℚ))
  volB : Option (Except PyError (Option ℚ))

/-- Semantics of one step: writes update the global; reads run
`calculate_position_size` with the global current at that moment and
otherwise identical arguments. -/
def pipe_step (newsA newsB : NewsData) (balance : ℚ) (si : SymbolInfo)
    (sl_pips : ℚ) : PipeStep → PipeState → PipeState
  | PipeStep.setRiskA, s => { s with risk_percent := dynamic_risk_percent newsA }
  | PipeStep.setRiskB, s => { s with risk_percent := dynamic_risk_percent newsB }
  | PipeStep.sizeA, s =>
    { s with volA := some (calculate_position_size (some balance) (some si) s.risk_percent sl_pips) }
  | PipeStep.sizeB, s =>
    { s with volB := some (calculate_position_size (some balance) (some si) s.risk_percent sl_pips) }

/-- Run a schedule (an interleaving chosen by the event loop) from a state. -/
def run_pipeline (newsA newsB : NewsData) (balance : ℚ) (si : SymbolInfo)
    (sl_pips : ℚ) (sched : List PipeStep) (s0 : PipeState) : PipeState :=
  sched.foldl (fun s step => pipe_step newsA newsB balance si sl_pips step s) s0

/-- Modelled from the spec (section 4.4 of `spec.md`): `canTrade(symbol)` is
false if today's trade counter is at or above the daily cap, false if now is
before `cooldown_until`, and true otherwise. -/
def can_trade_spec (trade_counter : Option (ℤ × ℕ)) (cooldown_until : Option ℤ)
    (now : DT) : Bool :=
  if MAX_TRADES_PER_DAY ≤ countFor trade_counter now.date then false
  else if cooldown_active cooldown_until now.t then false
  else true

/-! ## Concrete fixtures for the closed instance theorems -/

/-- A plain symbol metadata record with unit point/tick/step sizes. -/
def siE : SymbolInfo :=
  { visible := true, point := 1, trade_tick_value := 1, trade_tick_size := 1,
    volume_step := 1, volume_min := 1, volume_max := 1000 }

/-- The symbol metadata of the position-sizing example in the spec:
point and tick size `0.0001`, tick value `1`, volume step/min `0.01`,
volume max `100`. -/
def siW : SymbolInfo :=
  { visible := true, point := 1 / 10000, trade_tick_value := 1,
    trade_tick_size := 1 / 10000, volume_step := 1 / 100,
    volume_min := 1 / 100, volume_max := 100 }

/-- Symbol metadata whose broker volume step is zero. -/
def siZeroStep : SymbolInfo :=
  { visible := true, point := 1, trade_tick_value := 1, trade_tick_size := 1,
    volume_step := 0, volume_min := 1, volume_max := 1000 }

/-- An execution environment in which every terminal call succeeds except
that `mt5.order_send` returns no result object. -/
def env0 : ExecEnv :=
  { tickMarket := some { ask := 1, bid := 1 }, siMarket := some siE,
    siExec := some siE, atr := some 1, tickExec := some { ask := 1, bid := 1 },
    accountBalance := some 1500, siCalc := some siE, orderResult := none }

/-- Midday instant, well after the liquidity-start hour. -/
def now0 : DT := { date := 20000, hour := 12, t := 1728000000 }

/-- The fresh process state: no open positions, empty counter, no cooldown. -/
def st0 : BotState :=
  { open_positions := [], trade_counter := none, cooldown_until := none }

/-- A closed (entry = 1) BUY deal with realized profit −5. -/
def lossDeal : Deal :=
  { ticket := 1, type := 0, entry := 1, symbol := "EURUSD", volume := 1,
    price := 1, profit := -5, time := 0 }

/-- A high-importance (tier 3) accepted news item. -/
def ndHigh : NewsData :=
  { title := some "cpi beat", type := some "economic", importance := some 3 }

/-- A medium-importance (tier 2) accepted news item. -/
def ndMed : NewsData :=
  { title := some "cpi beat", type := some "economic", importance := some 2 }

/-! ## Helper lemmas -/

/-- `can_trade` always stores back the lazily-reset counter: the entry for
today, with today's previous count (0 for a fresh date). -/
theorem can_trade_snd (symbol : String) (counter : Option (ℤ × ℕ))
    (cooldown_until : Option ℤ) (now : DT) :
    (can_trade symbol counter cooldown_until now).2 =
      some (now.date, countFor counter now.date) := by
  unfold can_trade
  rcases counter with _ | ⟨d1, k⟩ <;> rcases cooldown_until with _ | cu <;>
    simp only [countFor] <;> split_ifs <;> simp_all

/-- The decision of `can_trade` agrees with the spec-level description. -/
theorem can_trade_fst (symbol : String) (counter : Option (ℤ × ℕ))
    (cooldown_until : Option ℤ) (now : DT) :
    (can_trade symbol counter cooldown_until now).1 =
      can_trade_spec counter cooldown_until now := by
  unfold can_trade can_trade_spec cooldown_active
  rcases counter with _ | ⟨d1, k⟩ <;> rcases cooldown_until with _ | cu <;>
    simp only [countFor] <;> split_ifs <;> simp_all <;> omega

/-- One `register_trade` call increments today's count by exactly one. -/
theorem register_count (counter : Option (ℤ × ℕ)) (d : ℤ) :
    countFor (register_trade counter d) d = countFor counter d + 1 := by
  rcases counter with _ | ⟨d1, k⟩
  · simp [register_trade, countFor]
  · by_cases h : d1 = d
    · subst h; simp [register_trade, countFor]
    · simp [register_trade, countFor, h]

/-- `n` registrations on date `d` bring the count for `d` to at least `n`. -/
theorem register_iter_count (counter : Option (ℤ × ℕ)) (d : ℤ) (n : ℕ) :
    n ≤ countFor (register_iter counter d n) d := by
  induction n with
  | zero => exact Nat.zero_le _
  | succ k ih =>
    show k + 1 ≤ countFor (register_trade (register_iter counter d k) d) d
    rw [register_count]
    omega

/-- After at least one registration on date `d` the counter holds key `d`. -/
theorem register_iter_key (counter : Option (ℤ × ℕ)) (d : ℤ) (n : ℕ)
    (hn : 0 < n) : ∃ m, register_iter counter d n = some (d, m) := by
  rcases n with _ | k
  · omega
  · show ∃ m, register_trade (register_iter counter d k) d = some (d, m)
    rcases register_iter counter d k with _ | ⟨d1, j⟩
    · exact ⟨1, rfl⟩
    · by_cases h : d1 = d
      · subst h; exact ⟨j + 1, by simp [register_trade]⟩
      · exact ⟨1, by simp [register_trade, h]⟩

/-- `execute_attempt` appends exactly one audit record when the order is
filled and none on every other path. -/
theorem execute_attempt_records (env : ExecEnv) (risk_percent : ℚ)
    (action symbol : String) (now : DT) (news_received_t : ℤ) (ct : Bool) :
    ((execute_attempt env risk_percent action symbol now news_received_t ct).2).length =
      if (execute_attempt env risk_percent action symbol now news_received_t ct).1 =
          ExecOutcome.opened then 1 else 0 := by
  unfold execute_attempt
  dsimp only
  repeat first
  | rfl
  | split

/-! ## Claim theorems -/

/-- C1, counterexample: the claim says an active `cooldown_until = T1`
is never shortened — if a new loss computes `T2 < T1` the effective value
remains `T1`.  In the code the monitor assigns
`cooldown_until = utcnow() + COOLDOWN_AFTER_LOSS` unconditionally: with the
cooldown `some 10000` active at `now = 0` (so `T1 = 10000 > 0`), a fresh
losing deal computes `T2 = 600 < T1` and the stored cooldown becomes
`some 600`, not `T1`. -/
theorem c1_counterexample :
    (monitor_closed_trades_step [] (some 10000) 0 lossDeal).2.1 = some 600 ∧
    (monitor_closed_trades_step [] (some 10000) 0 lossDeal).2.1 ≠ some 10000 ∧
    (0 : ℤ) < 10000 ∧ (600 : ℤ) < 10000 := by
  refine ⟨by decide, ?_, by decide, by decide⟩
  decide

/-- C1, amended: for every newly observed closed deal with negative realized
profit the monitor sets `cooldown_until` to `now + COOLDOWN_AFTER_LOSS` by
plain assignment (no maximum with the existing value is taken), so the
effective cooldown is non-decreasing only when the existing value is at most
`now + COOLDOWN_AFTER_LOSS` — which holds whenever observation timestamps
are non-decreasing, the duration being a constant. -/
theorem c1_amended (last_ticket_set : List ℕ) (cooldown_until : Option ℤ)
    (now : ℤ) (deal : Deal)
    (hfresh : deal.ticket ∉ last_ticket_set)
    (htype : deal.type = DEAL_TYPE_BUY ∨ deal.type = DEAL_TYPE_SELL)
    (hentry : deal.entry = 1)
    (hloss : deal.profit < 0)
    (hmono : optionLe cooldown_until (some (now + COOLDOWN_AFTER_LOSS)) = true) :
    (monitor_closed_trades_step last_ticket_set cooldown_until now deal).2.1 =
      some (now + COOLDOWN_AFTER_LOSS) ∧
    optionLe cooldown_until
      (monitor_closed_trades_step last_ticket_set cooldown_until now deal).2.1 = true := by
  have h1 : (monitor_closed_trades_step last_ticket_set cooldown_until now deal).2.1 =
      some (now + COOLDOWN_AFTER_LOSS) := by
    unfold monitor_closed_trades_step
    rw [if_pos ⟨htype, hentry⟩, if_neg hfresh]
    dsimp only
    rw [if_pos hloss]
  exact ⟨h1, by rw [h1]; exact hmono⟩

/-- C1, witness for the amended theorem at a concrete input: cooldown
`some 300`, a fresh losing deal observed at `now = 0`. -/
theorem c1_witness :
    (monitor_closed_trades_step [] (some 300) 0 lossDeal).2.1 =
      some (0 + COOLDOWN_AFTER_LOSS) ∧
    optionLe (some 300) (monitor_closed_trades_step [] (some 300) 0 lossDeal).2.1 = true :=
  c1_amended [] (some 300) 0 lossDeal (by decide) (by decide) (by decide)
    (by decide) (by decide)

/-- C9: the effective `monitor_closed_trades` loop (lines 668-703) does not
poll again 5 seconds after a successful iteration: its
`await asyncio.sleep(10)` sits outside the `except` clause, so a successful
iteration sleeps 5 + 10 = 15 seconds before the next poll, while the
earlier, shadowed definition (lines 455-490) matches the claimed
5-second/10-second behavior.  An erroring iteration sleeps 10 seconds in
both. -/
theorem c9_eval :
    monitor_cycle_sleep false = 15 ∧
    monitor_cycle_sleep false ≠ 5 ∧
    monitor_cycle_sleep true = 10 ∧
    monitor_cycle_sleep_shadowed false = 5 ∧
    monitor_cycle_sleep_shadowed true = 10 := by
  refine ⟨by decide, ?_, by decide, by decide, by decide⟩
  decide

/-- C5: the response parser of `get_trade_signal` implements the strict
two-line grammar of the spec — it agrees with the spec-level grammar
function on every response, `"BUY EURUSD\nCPI beat forecast"` parses to
`(BUY, EURUSD, "CPI beat forecast")`, `"HOLD EURUSD"` (invalid action) and
the empty response yield no-signal, a wrong token count yields no-signal,
and a single-line response gets the placeholder reason with the `/`
separator stripped from the symbol and matching done case-insensitively. -/
theorem c5 :
    (∀ response : String, parse_signal_response response = parse_signal_spec response) ∧
    parse_signal_response "BUY EURUSD\nCPI beat forecast" =
      some ("BUY", "EURUSD", "CPI beat forecast") ∧
    parse_signal_response "HOLD EURUSD" = none ∧
    parse_signal_response "" = none ∧
    parse_signal_response "BUY EURUSD NOW" = none ∧
    parse_signal_response "sell eur/usd" =
      some ("SELL", "EURUSD", "Причина не вказана.") := by
  refine ⟨fun response => ?_, by decide, by decide, by decide, by decide, by decide⟩
  unfold parse_signal_response parse_signal_spec
  cases hl : pySplitLines (pyStrip response) with
  | nil => rfl
  | cons l0 rest =>
    simp only [List.headD_cons]
    cases hw : pySplitWs (pyUpper (pyStrip l0)) with
    | nil => rfl
    | cons a as =>
      cases as with
      | nil => rfl
      | cons b bs =>
        cases bs with
        | cons c cs => rfl
        | nil =>
          dsimp only
          by_cases h : a = "BUY" ∨ a = "SELL" ∨ a = "SKIP"
          · rw [if_pos h, if_pos (show a ∈ ["BUY", "SELL", "SKIP"] by simpa using h)]
            cases rest with
            | nil => rfl
            | cons l1 ls => rfl
          · rw [if_neg h, if_neg (show a ∉ ["BUY", "SELL", "SKIP"] by simpa using h)]

/-- C2: duplicate protection and guaranteed release.  (i) `acquire` rejects a
symbol already in the open-position set and leaves the set untouched;
(ii) after a successful `acquire`, a second `acquire` of the same symbol is
rejected (at most one holder at a time); (iii) a whole `execute_trade` run
for a symbol already held returns as a duplicate without trading, without
records and without disturbing the first holder's state; (iv) when the
symbol was acquired, `open_positions` is restored on every exit path of the
attempt — for every environment, hence for success, every rejection and the
exception path alike. -/
theorem c2 :
    (∀ (s : List String) (sym : String), sym ∈ s → acquire s sym = (false, s)) ∧
    (∀ (s : List String) (sym : String),
      (acquire s sym).1 = true → (acquire (acquire s sym).2 sym).1 = false) ∧
    (∀ (env : ExecEnv) (rp : ℚ) (a sym : String) (now : DT) (nt : ℤ) (st : BotState),
      sym ∈ st.open_positions →
      execute_trade env rp a sym now nt st = (ExecOutcome.duplicate, st, [])) ∧
    (∀ (env : ExecEnv) (rp : ℚ) (a sym : String) (now : DT) (nt : ℤ) (st : BotState),
      sym ∉ st.open_positions →
      ((execute_trade env rp a sym now nt st).2.1).open_positions = st.open_positions) := by
  refine ⟨?_, ?_, ?_, ?_⟩
  · intro s sym h
    unfold acquire
    rw [if_pos h]
  · intro s sym h
    by_cases hm : sym ∈ s
    · rw [show acquire s sym = (false, s) by unfold acquire; rw [if_pos hm]] at h
      simp at h
    · rw [show acquire s sym = (true, sym :: s) by unfold acquire; rw [if_neg hm]]
      unfold acquire
      rw [if_pos (List.mem_cons_self sym s)]
  · intro env rp a sym now nt st h
    unfold execute_trade
    rw [show acquire st.open_positions sym = (false, st.open_positions) by
      unfold acquire; rw [if_pos h]]
  · intro env rp a sym now nt st h
    unfold execute_trade
    rw [show acquire st.open_positions sym = (true, sym :: st.open_positions) by
      unfold acquire; rw [if_neg h]]
    dsimp only
    exact List.erase_cons_head sym st.open_positions

/-- C2, witness: with `EURUSD` already held, a full `execute_trade` run is
rejected as a duplicate leaving the state alone; and from a fresh state the
set is restored after the attempt (here an attempt that ends in the
missing-broker-result path). -/
theorem c2_witness :
    execute_trade env0 10 "BUY" "EURUSD" now0 0
        { open_positions := ["EURUSD"], trade_counter := none, cooldown_until := none } =
      (ExecOutcome.duplicate,
        { open_positions := ["EURUSD"], trade_counter := none, cooldown_until := none }, []) ∧
    ((execute_trade env0 10 "BUY" "EURUSD" now0 0 st0).2.1).open_positions =
      st0.open_positions :=
  ⟨c2.2.2.1 env0 10 "BUY" "EURUSD" now0 0
      { open_positions := ["EURUSD"], trade_counter := none, cooldown_until := none }
      (by decide),
    c2.2.2.2 env0 10 "BUY" "EURUSD" now0 0 st0 (by decide)⟩

/-- C4: the execution path never touches the daily counter beyond the lazy
reset performed inside `can_trade` — (i) for every environment and state,
today's count after `execute_trade` equals today's count before; (ii) the
resulting counter is either exactly the old one (duplicate rejection) or the
lazily-reset entry `(today, old count)`; (iii) by contrast the unreferenced
`register_trade` increments today's count — so engine-opened trades never
bring the counter toward the daily cap. -/
theorem c4 :
    (∀ (env : ExecEnv) (rp : ℚ) (a sym : String) (now : DT) (nt : ℤ) (st : BotState),
      countFor ((execute_trade env rp a sym now nt st).2.1).trade_counter now.date =
        countFor st.trade_counter now.date) ∧
    (∀ (env : ExecEnv) (rp : ℚ) (a sym : String) (now : DT) (nt : ℤ) (st : BotState),
      ((execute_trade env rp a sym now nt st).2.1).trade_counter = st.trade_counter ∨
      ((execute_trade env rp a sym now nt st).2.1).trade_counter =
        some (now.date, countFor st.trade_counter now.date)) ∧
    (∀ (counter : Option (ℤ × ℕ)) (d : ℤ),
      countFor (register_trade counter d) d = countFor counter d + 1) := by
  have key : ∀ (env : ExecEnv) (rp : ℚ) (a sym : String) (now : DT) (nt : ℤ)
      (st : BotState),
      ((execute_trade env rp a sym now nt st).2.1).trade_counter = st.trade_counter ∨
      ((execute_trade env rp a sym now nt st).2.1).trade_counter =
        some (now.date, countFor st.trade_counter now.date) := by
    intro env rp a sym now nt st
    unfold execute_trade
    by_cases h : sym ∈ st.open_positions
    · rw [show acquire st.open_positions sym = (false, st.open_positions) by
        unfold acquire; rw [if_pos h]]
      exact Or.inl rfl
    · rw [show acquire st.open_positions sym = (true, sym :: st.open_positions) by
        unfold acquire; rw [if_neg h]]
      dsimp only
      exact Or.inr (can_trade_snd sym st.trade_counter st.cooldown_until now)
  refine ⟨?_, key, fun counter d => register_count counter d⟩
  intro env rp a sym now nt st
  rcases key env rp a sym now nt st with h | h
  · rw [h]
  · rw [h]
    simp [countFor]

/-- C8, counterexample: the claim says every trade-execution outcome —
including a missing broker result object — produces exactly one audit
record.  In the code only a filled order appends a trade record: in an
environment where every step succeeds but `mt5.order_send` returns no result
object, the attempt ends in the "unknown error" path with zero audit
records. -/
theorem c8_counterexample :
    (execute_trade env0 10 "BUY" "EURUSD" now0 0 st0).1 = ExecOutcome.unknownError ∧
    ((execute_trade env0 10 "BUY" "EURUSD" now0 0 st0).2.2).length = 0 := by
  constructor <;>
    norm_num [execute_trade, execute_attempt, acquire, can_trade,
      check_market_conditions, calculate_position_size, raw_lot_size, pyRound,
      clampVol, env0, st0, now0, siE, MIN_LIQUIDITY_HOUR, MAX_SPREAD_POINTS,
      MAX_TRADES_PER_DAY, ATR_SL_MULTIPLIER, TRADE_RETCODE_DONE, Int.fract,
      abs_of_pos, abs_of_nonneg]

/-- C8, amended: every trade-filtering outcome (accept and all four reject
kinds) produces exactly one audit record, but a trade-execution attempt
produces exactly one audit record only when the broker reports success
(`retcode = TRADE_RETCODE_DONE`); every other execution outcome — duplicate,
guard or market rejection, missing data, missing broker result, broker
rejection, exception — produces none (notification and log only). -/
theorem c8_amended :
    (∀ nd : NewsData, ((process_news_filter nd).2).length = 1) ∧
    (∀ (env : ExecEnv) (rp : ℚ) (a sym : String) (now : DT) (nt : ℤ) (st : BotState),
      ((execute_trade env rp a sym now nt st).2.2).length =
        if (execute_trade env rp a sym now nt st).1 = ExecOutcome.opened
        then 1 else 0) := by
  constructor
  · intro nd
    unfold process_news_filter
    dsimp only
    repeat first
    | rfl
    | split
  · intro env rp a sym now nt st
    unfold execute_trade
    by_cases h : sym ∈ st.open_positions
    · rw [show acquire st.open_positions sym = (false, st.open_positions) by
        unfold acquire; rw [if_pos h]]
      simp
    · rw [show acquire st.open_positions sym = (true, sym :: st.open_positions) by
        unfold acquire; rw [if_neg h]]
      dsimp only
      exact execute_attempt_records env rp a sym now nt
        (can_trade sym st.trade_counter st.cooldown_until now).1

/-- C3: the daily cap and the lazy date reset.  (i) `can_trade` computes the
spec decision (false at or above the cap, false during an active cooldown,
true otherwise) and stores back exactly the lazily-reset counter
`(today, previous count for today)` — in particular a fresh UTC date resets
the count to 0 the first time it is observed, with no timer; (ii) the daily
cap's worth of registrations on date `d` brings the count for `d` to at
least the cap; (iii) after them `can_trade` returns false for every symbol
while the date is still `d`; (iv) once the UTC date has advanced the cap no
longer blocks: absent an active cooldown, `can_trade` is true again for
every symbol. -/
theorem c3 :
    (∀ (sym : String) (counter : Option (ℤ × ℕ)) (cd : Option ℤ) (now : DT),
      can_trade sym counter cd now =
        (can_trade_spec counter cd now, some (now.date, countFor counter now.date))) ∧
    (∀ (counter : Option (ℤ × ℕ)) (d : ℤ),
      MAX_TRADES_PER_DAY ≤ countFor (register_iter counter d MAX_TRADES_PER_DAY) d) ∧
    (∀ (sym : String) (counter : Option (ℤ × ℕ)) (cd : Option ℤ) (now : DT) (d : ℤ),
      now.date = d →
      (can_trade sym (register_iter counter d MAX_TRADES_PER_DAY) cd now).1 = false) ∧
    (∀ (sym : String) (counter : Option (ℤ × ℕ)) (cd : Option ℤ) (now : DT) (d : ℤ),
      now.date ≠ d → cooldown_active cd now.t = false →
      (can_trade sym (register_iter counter d MAX_TRADES_PER_DAY) cd now).1 = true) := by
  refine ⟨?_, ?_, ?_, ?_⟩
  · intro sym counter cd now
    exact Prod.ext_iff.mpr ⟨can_trade_fst sym counter cd now, can_trade_snd sym counter cd now⟩
  · intro counter d
    exact register_iter_count counter d MAX_TRADES_PER_DAY
  · intro sym counter cd now d h
    subst h
    rw [can_trade_fst]
    unfold can_trade_spec
    rw [if_pos (register_iter_count counter now.date MAX_TRADES_PER_DAY)]
  · intro sym counter cd now d hne hcd
    rw [can_trade_fst]
    unfold can_trade_spec
    obtain ⟨m, hm⟩ :=
      register_iter_key counter d MAX_TRADES_PER_DAY (by norm_num [MAX_TRADES_PER_DAY])
    rw [hm]
    have hc : countFor (some (d, m)) now.date = 0 := by
      simp [countFor, Ne.symm hne]
    rw [hc, if_neg (by norm_num [MAX_TRADES_PER_DAY]), hcd]
    simp

/-- C3, witness: from an empty counter, ten registrations on date 5 make
`can_trade` false on date 5 and, with no cooldown set, true again on
date 6. -/
theorem c3_witness :
    (can_trade "EURUSD" (register_iter none 5 MAX_TRADES_PER_DAY) none
      { date := 5, hour := 12, t := 0 }).1 = false ∧
    (can_trade "EURUSD" (register_iter none 5 MAX_TRADES_PER_DAY) none
      { date := 6, hour := 12, t := 0 }).1 = true :=
  ⟨c3.2.2.1 "EURUSD" none none { date := 5, hour := 12, t := 0 } 5 rfl,
    c3.2.2.2 "EURUSD" none none { date := 6, hour := 12, t := 0 } 5
      (by decide) (by decide)⟩

/-- C6: the position-size computation.  (i) With every divisor nonzero, the
returned volume is the raw `risk_amount / (stop_distance × value_per_pip)`
lot rounded to the nearest broker volume step (Python banker's rounding) and
then clamped into `[volume_min, volume_max]` by the two sequential clamps;
(ii) the spec's example — balance 10000, risk 5 %, stop distance 20, tick
value 1, tick size 0.0001, point 0.0001 — gives raw volume 25; (iii) the
rounding is to the nearest integer multiple: it moves the value by at most
half a step. -/
theorem c6 :
    (∀ (balance rp sl : ℚ) (si : SymbolInfo),
      si.trade_tick_size ≠ 0 → si.point ≠ 0 →
      si.trade_tick_value * (si.point / si.trade_tick_size) ≠ 0 → sl ≠ 0 →
      si.volume_step ≠ 0 →
      calculate_position_size (some balance) (some si) rp sl =
        Except.ok (some (clampVol
          ((pyRound (raw_lot_size balance rp sl si.trade_tick_value
              si.trade_tick_size si.point / si.volume_step) : ℚ) * si.volume_step)
          si.volume_min si.volume_max))) ∧
    raw_lot_size 10000 5 20 1 (1 / 10000) (1 / 10000) = 25 ∧
    (∀ q : ℚ, |(pyRound q : ℚ) - q| ≤ 1 / 2) := by
  refine ⟨?_, by norm_num [raw_lot_size], ?_⟩
  · intro balance rp sl si h1 h2 h3 h4 h5
    unfold calculate_position_size
    dsimp only
    rw [if_neg (by push_neg; exact ⟨h1, h2⟩), if_neg (by push_neg; exact ⟨h3, h4⟩),
      if_neg h5]
  · intro q
    have hfl := Int.floor_le q
    have hfu := Int.lt_floor_add_one q
    unfold pyRound
    split_ifs with hA hB hC
    · rw [abs_le]; constructor <;> push_cast <;> linarith
    · rw [abs_le]; constructor <;> push_cast <;> linarith
    · rw [abs_le]; constructor <;> push_cast <;> linarith
    · rw [abs_le]; constructor <;> push_cast <;> linarith

/-- C6, witness for the first part at the spec's example inputs (broker
limits `siW`: step and minimum 0.01, maximum 100). -/
theorem c6_witness :
    calculate_position_size (some 10000) (some siW) 5 20 =
      Except.ok (some (clampVol
        ((pyRound (raw_lot_size 10000 5 20 siW.trade_tick_value siW.trade_tick_size
            siW.point / siW.volume_step) : ℚ) * siW.volume_step)
        siW.volume_min siW.volume_max)) :=
  c6.1 10000 5 20 siW (by norm_num [siW]) (by norm_num [siW]) (by norm_num [siW])
    (by norm_num) (by norm_num [siW])

/-- C7, counterexample: the claim says the sizing computation never divides
by zero unguarded.  The divisors the source does test (`tick_size`, `point`,
`value_per_pip`, `sl_pips`) are guarded, but the volume-step rounding
`round(lot_size / lot_step)` is not: with a zero broker volume step and
every guarded divisor nonzero, the computation reaches that division with a
zero divisor and raises `ZeroDivisionError` (rather than returning the
guarded `None`). -/
theorem c7_counterexample :
    calculate_position_size (some 1500) (some siZeroStep) 10 2 =
      Except.error PyError.zeroDivisionError := by
  norm_num [calculate_position_size, siZeroStep, raw_lot_size]

/-- C7, amended: every zero divisor in the sizing chain is a hard failure
and none is silently defaulted, but they fail differently: zero `tick_size`
or `point`, and zero `value_per_pip` or stop distance, are guarded and
return `None`; a zero volume step reaches the unguarded rounding division
and raises `ZeroDivisionError` (which aborts the attempt at the
`execute_trade` exception handler).  In no zero-divisor case is a volume
produced. -/
theorem c7_amended :
    (∀ (balance rp sl : ℚ) (si : SymbolInfo),
      si.trade_tick_size = 0 ∨ si.point = 0 →
      calculate_position_size (some balance) (some si) rp sl = Except.ok none) ∧
    (∀ (balance rp sl : ℚ) (si : SymbolInfo),
      si.trade_tick_size ≠ 0 → si.point ≠ 0 →
      si.trade_tick_value * (si.point / si.trade_tick_size) = 0 ∨ sl = 0 →
      calculate_position_size (some balance) (some si) rp sl = Except.ok none) ∧
    (∀ (balance rp sl : ℚ) (si : SymbolInfo),
      si.trade_tick_size ≠ 0 → si.point ≠ 0 →
      si.trade_tick_value * (si.point / si.trade_tick_size) ≠ 0 → sl ≠ 0 →
      si.volume_step = 0 →
      calculate_position_size (some balance) (some si) rp sl =
        Except.error PyError.zeroDivisionError) ∧
    (∀ (balance rp sl v : ℚ) (si : SymbolInfo),
      si.trade_tick_size = 0 ∨ si.point = 0 ∨
        si.trade_tick_value * (si.point / si.trade_tick_size) = 0 ∨ sl = 0 ∨
        si.volume_step = 0 →
      calculate_position_size (some balance) (some si) rp sl ≠
        Except.ok (some v)) := by
  have A : ∀ (balance rp sl : ℚ) (si : SymbolInfo),
      si.trade_tick_size = 0 ∨ si.point = 0 →
      calculate_position_size (some balance) (some si) rp sl = Except.ok none := by
    intro balance rp sl si h
    unfold calculate_position_size
    dsimp only
    rw [if_pos h]
  have B : ∀ (balance rp sl : ℚ) (si : SymbolInfo),
      si.trade_tick_size ≠ 0 → si.point ≠ 0 →
      si.trade_tick_value * (si.point / si.trade_tick_size) = 0 ∨ sl = 0 →
      calculate_position_size (some balance) (some si) rp sl = Except.ok none := by
    intro balance rp sl si h1 h2 h
    unfold calculate_position_size
    dsimp only
    rw [if_neg (by push_neg; exact ⟨h1, h2⟩), if_pos h]
  have C : ∀ (balance rp sl : ℚ) (si : SymbolInfo),
      si.trade_tick_size ≠ 0 → si.point ≠ 0 →
      si.trade_tick_value * (si.point / si.trade_tick_size) ≠ 0 → sl ≠ 0 →
      si.volume_step = 0 →
      calculate_position_size (some balance) (some si) rp sl =
        Except.error PyError.zeroDivisionError := by
    intro balance rp sl si h1 h2 h3 h4 h5
    unfold calculate_position_size
    dsimp only
    rw [if_neg (by push_neg; exact ⟨h1, h2⟩), if_neg (by push_neg; exact ⟨h3, h4⟩),
      if_pos h5]
  refine ⟨A, B, C, ?_⟩
  intro balance rp sl v si h hq
  by_cases h1 : si.trade_tick_size = 0
  · rw [A balance rp sl si (Or.inl h1)] at hq
    simp at hq
  by_cases h2 : si.point = 0
  · rw [A balance rp sl si (Or.inr h2)] at hq
    simp at hq
  by_cases h3 : si.trade_tick_value * (si.point / si.trade_tick_size) = 0
  · rw [B balance rp sl si h1 h2 (Or.inl h3)] at hq
    simp at hq
  by_cases h4 : sl = 0
  · rw [B balance rp sl si h1 h2 (Or.inr h4)] at hq
    simp at hq
  have h5 : si.volume_step = 0 := by tauto
  rw [C balance rp sl si h1 h2 h3 h4 h5] at hq
  simp at hq

/-- C7, witness for the never-a-volume part at a concrete zero-step input. -/
theorem c7_witness :
    calculate_position_size (some 1500) (some siZeroStep) 10 2 ≠
      Except.ok (some 100) :=
  c7_amended.2.2.2 1500 10 2 100 siZeroStep
    (Or.inr (Or.inr (Or.inr (Or.inr (by norm_num [siZeroStep])))))

/-- C10: position sizing is not a function of its arguments alone.  Under
the cooperative event loop, news task `A` (importance 3) writes the global
`RISK_PERCENT`, suspends awaiting its remote signal, task `B` (importance 2)
writes the global, and then `A`'s spawned trade sizes its position: the
schedule `[setRiskA, setRiskB, sizeA]` makes `A`'s trade use `B`'s risk tier
(volume 5 instead of the 10 its own tier computes) with every explicit
sizing argument identical. -/
theorem c10 :
    (run_pipeline ndHigh ndMed 1000 siE 10
        [PipeStep.setRiskA, PipeStep.setRiskB, PipeStep.sizeA]
        { risk_percent := RISK_PERCENT_initial, volA := none, volB := none }).volA =
      some (calculate_position_size (some 1000) (some siE)
        (dynamic_risk_percent ndMed) 10) ∧
    calculate_position_size (some 1000) (some siE) (dynamic_risk_percent ndMed) 10 =
      Except.ok (some 5) ∧
    calculate_position_size (some 1000) (some siE) (dynamic_risk_percent ndHigh) 10 =
      Except.ok (some 10) ∧
    dynamic_risk_percent ndMed ≠ dynamic_risk_percent ndHigh := by
  refine ⟨rfl, ?_, ?_, ?_⟩
  · norm_num [calculate_position_size, siE, raw_lot_size, pyRound, clampVol,
      dynamic_risk_percent, ndMed]
  · norm_num [calculate_position_size, siE, raw_lot_size, pyRound, clampVol,
      dynamic_risk_percent, ndHigh]
  · norm_num [dynamic_risk_percent, ndMed, ndHigh]

end NewsBot
